import Mathlib

/-!
Shallow embedding of the table lobby and join negotiation protocol of
`src/src/web/scripts/CypherPoker.js`. JavaScript objects carrying table data
are modelled by the `TableObject` structure; the mutable per-instance fields of
the `CypherPoker` class are gathered into `CPState`; calls into the transport
(`p2p.send` and `p2p.broadcast`) are recorded as `NetOp` values; dispatched
events are recorded as `CPEvent` values or counted; JavaScript exceptions are
modelled by `JSError`.
-/

/-- A CypherPoker table object (`CypherPoker.TableObject` in the source, lines
90 to 104). `tableInfo` is an opaque payload object; the source only ever
compares it against the empty string in `isValidTable`, so it is modelled as a
`String` where the empty string stands for a missing or empty value. -/
structure TableObject where
  ownerPID : String
  tableID : String
  tableName : String
  requiredPID : List String
  joinedPID : List String
  tableInfo : String
  deriving Repr, DecidableEq

/-- JavaScript runtime errors surfaced by the source. -/
inductive JSError where
  | referenceError (name : String)
  | typeError (message : String)
  | error (message : String)
  deriving Repr, DecidableEq

/-- CypherPoker peer to peer messages built by `buildCPMessage` plus
`copyTable`: a `cpMsg` discriminator together with the copied table fields. -/
inductive CPMsg where
  | newtable (table : TableObject)
  | jointablerequest (table : TableObject)
  | jointable (table : TableObject)
  deriving Repr, DecidableEq

/-- A call handed to the transport: `p2p.send(message, recipients)` or
`p2p.broadcast(message)`. -/
inductive NetOp where
  | send (msg : CPMsg) (recipients : List String)
  | broadcast (msg : CPMsg)
  deriving Repr, DecidableEq

/-- Events dispatched by the instance that the claims reason about
individually. -/
inductive CPEvent where
  | jointabletimeout (table : TableObject)
  deriving Repr, DecidableEq

/-- The mutable per-instance fields of the `CypherPoker` class that the lobby
protocol reads and writes. `selfPID` is `this.p2p.privateID`. The lazily
initialized arrays are modelled as lists that start empty. -/
structure CPState where
  connected : Bool
  selfPID : String
  openTables : Bool
  joinedTables : List TableObject
  announcedTables : List TableObject
  joinTableRequests : List TableObject
  maxCapturedTables : Nat
  maxCapturesPerPeer : Nat
  deriving Repr, DecidableEq

/-- Table validity check, source lines 422 to 453. In the typed embedding the
fields are always present, so the residual checks are the empty string tests on
`ownerPID`, `tableID` and `tableInfo`; the checks that `tableName` is present
and that `requiredPID.length` and `joinedPID.length` are numbers hold by
construction here. -/
def isValidTable (tableObj : TableObject) : Bool :=
  if tableObj.ownerPID = "" then false
  else if tableObj.tableID = "" then false
  else if tableObj.tableInfo = "" then false
  else true

/-- The copy of a private ID list excluding the self, source lines 713 to 721.
The source loop pushes every entry different from `this.p2p.privateID`; this is
a filter. -/
def createTablePIDList (selfPID : String) (pidList : List String) : List String :=
  pidList.filter (fun p => p ≠ selfPID)

/-! ### announceTable and the beacon (source lines 396 to 412) -/

/-- Result of one `announceTable` call: the message broadcast (if any) and
whether `clearInterval` was invoked on the beacon handle. -/
structure AnnounceResult where
  broadcast : Option CPMsg
  beaconCleared : Bool
  deriving Repr, DecidableEq

/-- `announceTable`, source lines 396 to 412: when the `requiredPID` array is
empty the beacon interval is cleared and the function returns without
broadcasting; otherwise a `newtable` message carrying the table is broadcast. -/
def announceTable (tableObj : TableObject) : AnnounceResult :=
  if tableObj.requiredPID.length = 0 then
    { broadcast := none, beaconCleared := true }
  else
    { broadcast := some (CPMsg.newtable tableObj), beaconCleared := false }

/-- The beacon timer for one table: at each tick, if the timer is still active
it invokes `announceTable` on the current snapshot of the table and deactivates
itself when `announceTable` cleared the interval; a cleared timer never invokes
`announceTable` again, so later ticks produce no broadcast. The list holds the
table snapshot observed at each tick and the result holds the broadcast (if
any) produced at each tick. -/
def beaconRun (active : Bool) : List TableObject → List (Option CPMsg)
  | [] => []
  | t :: rest =>
    if active then
      let r := announceTable t
      r.broadcast :: beaconRun (active && !r.beaconCleared) rest
    else
      none :: beaconRun false rest

/-! ### joinTable (source lines 468 to 514) -/

/-- The `slotAvailable` scan of `joinTable`, source lines 479 to 486: the loop
sets the flag when an entry equals the wildcard or the local private ID and
never resets it. -/
def slotAvailableScan (selfPID : String) (required : List String) : Bool :=
  required.foldl (fun acc p => if p = "*" ∨ p = selfPID then true else acc) false

/-- The duplicate check loop of `joinTable`, source lines 495 to 503. The
source reads `currentRequestTable[count].ownerPID` where `currentRequestTable`
is the table object at index `count` of `_joinTableRequests`; a table object
has no numeric properties, so as soon as the pending list is nonempty the
inner access yields `undefined` on the first iteration and reading `.ownerPID`
of it throws a `TypeError`, which rejects the promise. -/
def joinRequestDupScan : List TableObject → Option JSError
  | [] => none
  | _ :: _ => some (JSError.typeError "cannot read ownerPID of undefined")

/-- Outcome of a `joinTable` call: a value thrown inside the promise executor
(which rejects the promise), an explicit `reject(null)`, or the pending state
in which the request was recorded, the join request sent and the timeout timer
started. -/
inductive JoinOutcome where
  | threw (err : JSError)
  | rejected
  | pending
  deriving Repr, DecidableEq

/-- Full result of a `joinTable` call. -/
structure JoinTableResult where
  outcome : JoinOutcome
  state : CPState
  sent : List NetOp
  timerStarted : Bool
  deriving Repr, DecidableEq

/-- `joinTable`, source lines 468 to 514: check connectivity, table validity,
slot availability and the pending list, then record the request, send a
`jointablerequest` message to the owner (`sendJoinTableRequest`, lines 557 to
562) and start the reply timeout timer. -/
def joinTable (s : CPState) (tableObj : TableObject) : JoinTableResult :=
  if s.connected = false then
    { outcome := JoinOutcome.threw (JSError.error "Peer-to-peer network connection not established."),
      state := s, sent := [], timerStarted := false }
  else if isValidTable tableObj = false then
    { outcome := JoinOutcome.rejected, state := s, sent := [], timerStarted := false }
  else if slotAvailableScan s.selfPID tableObj.requiredPID = false then
    { outcome := JoinOutcome.rejected, state := s, sent := [], timerStarted := false }
  else
    match joinRequestDupScan s.joinTableRequests with
    | some e =>
      { outcome := JoinOutcome.threw e, state := s, sent := [], timerStarted := false }
    | none =>
      { outcome := JoinOutcome.pending,
        state := { s with joinTableRequests := s.joinTableRequests ++ [tableObj] },
        sent := [NetOp.send (CPMsg.jointablerequest tableObj) [tableObj.ownerPID]],
        timerStarted := true }

/-! ### onJoinTableRequestTimeout (source lines 574 to 590) -/

/-- Result of the join request timeout handler as invoked by the timer: the
pending list after the invocation, the events dispatched, the request whose
promise was rejected (if any), and the error thrown (if any). -/
structure TimeoutResult where
  requests : List TableObject
  events : List CPEvent
  rejected : Option TableObject
  threw : Option JSError
  deriving Repr, DecidableEq

/-- `onJoinTableRequestTimeout` as invoked when the reply timer expires, source
lines 511 and 574 to 590. Line 511 schedules the handler with
`setTimeout(this.onJoinTableRequestTimeout, replyTimeout, tableObj, this)`,
which extracts the method without binding its receiver: the owning instance is
passed only as the `context` parameter. When the timer fires, `this` inside
the handler is not the instance (class bodies are strict mode, so in a browser
`this` is `undefined`, and in Node it is the timer object), so the very first
statement `this.debug(...)` at line 575 throws a TypeError, and
`this.dispatchEvent(event)` at line 585 would throw likewise. The scan over
`context._joinTableRequests` (lines 576 to 589), which would splice out the
first entry matching `(tableID, tableName, ownerPID)`, dispatch a
`jointabletimeout` event carrying it and reject its promise, is never reached:
the pending list is left untouched, no event is dispatched and no promise is
rejected. -/
def onJoinTableRequestTimeout (_tableObj : TableObject)
    (requests : List TableObject) : TimeoutResult :=
  { requests := requests, events := [], rejected := none,
    threw := some (JSError.typeError "this.debug is not a function") }

/-! ### getJoinedTables (source lines 649 to 687) -/

/-- The row scoring loop of `getJoinedTables`, source lines 658 to 685. For
each joined table the source evaluates the `tableName` and `tableID` checks
against a local `hits` score and then evaluates `if (ownerID != null)`; the
identifier `ownerID` is not declared anywhere (the parameter is named
`ownerPID` and no global of that name exists), so the first loop iteration
raises a `ReferenceError` regardless of which filters were supplied. -/
def getJoinedTablesLoop (joined : List TableObject)
    (_tableName _tableID _ownerPID : Option String) : Except JSError (List TableObject) :=
  match joined with
  | [] => Except.ok []
  | _ :: _ => Except.error (JSError.referenceError "ownerID")

/-- `getJoinedTables`, source lines 649 to 687: with all three filters null it
returns a copy of the joined tables list, otherwise it runs the scoring loop
over the joined tables. -/
def getJoinedTables (s : CPState) (tableName tableID ownerPID : Option String) :
    Except JSError (List TableObject) :=
  if tableName = none ∧ tableID = none ∧ ownerPID = none then
    Except.ok s.joinedTables
  else
    getJoinedTablesLoop s.joinedTables tableName tableID ownerPID

/-! ### captureTable (source lines 865 to 898) -/

/-- A JSON-RPC result object carrying an announcement: the sender private ID
(`result.from` in the source; `from` is a reserved word here) and the embedded
table (`result.data`). -/
structure TableResult where
  fromPID : String
  data : TableObject
  deriving Repr, DecidableEq

/-- The scan loop of `captureTable`, source lines 872 to 885: `numTables`
counts the cached entries whose `ownerPID` equals the sender; on each such
entry the capture is rejected if its `tableID` equals the announced table ID
(duplicate) or if the count exceeds `maxCapturesPerPeer`. Returns `true` when
the scan finishes without rejecting. -/
def captureScan (fromPID tableID : String) (maxPer : Nat) :
    List TableObject → Nat → Bool
  | [], _ => true
  | t :: rest, numTables =>
    if t.ownerPID = fromPID then
      let numTables2 := numTables + 1
      if t.tableID = tableID then false
      else if numTables2 > maxPer then false
      else captureScan fromPID tableID maxPer rest numTables2
    else
      captureScan fromPID tableID maxPer rest numTables

/-- Result of a `captureTable` call: the boolean the function returns and the
instance state afterwards. -/
structure CaptureResult where
  accepted : Bool
  state : CPState
  deriving Repr, DecidableEq

/-- `captureTable`, source lines 865 to 898. On acceptance the source builds a
copy `newTable` of the embedded table and overwrites its `ownerPID` with the
sender, but then unshifts `tableResult.data` itself (line 893), so the object
cached is the raw embedded table with its embedded `ownerPID`; when the array
then exceeds `maxCapturedTables` the last entry is popped. -/
def captureTable (s : CPState) (tableResult : TableResult) : CaptureResult :=
  if isValidTable tableResult.data = false then
    { accepted := false, state := s }
  else if captureScan tableResult.fromPID tableResult.data.tableID
      s.maxCapturesPerPeer s.announcedTables 0 = false then
    { accepted := false, state := s }
  else
    let unshifted := tableResult.data :: s.announcedTables
    let announced :=
      if unshifted.length > s.maxCapturedTables then unshifted.dropLast else unshifted
    { accepted := true, state := { s with announcedTables := announced } }

/-! ### The jointablerequest branch of handleP2PMessage (source lines 756 to 782) -/

/-- Result of the slot consumption loop over one table. -/
structure ConsumeResult where
  required : List String
  joined : List String
  ops : List NetOp
  events : Nat
  deriving Repr, DecidableEq

/-- The inner slot loop of the `jointablerequest` branch, source lines 765 to
775, acting on one owned matching table. `pre` is the already scanned prefix of
`requiredPID` and the third list argument is the remainder under the scan
index. When the entry under the index equals the requester or the wildcard,
the source splices it out, pushes the requester onto `joinedPID`, sends a
`jointable` message carrying the live table to the members excluding the self
and dispatches the event; the loop index then advances although the array
shrank, so the entry immediately after a consumed one is kept without being
examined. `base` supplies the fields of the table that the loop does not
mutate. -/
def consumeLoop (selfPID fromPID : String) (base : TableObject) :
    List String → List String → List String → ConsumeResult
  | pre, joined, [] => { required := pre, joined := joined, ops := [], events := 0 }
  | pre, joined, [slot] =>
    if slot = fromPID ∨ slot = "*" then
      let joined2 := joined ++ [fromPID]
      let snapshot := { base with requiredPID := pre, joinedPID := joined2 }
      { required := pre, joined := joined2,
        ops := [NetOp.send (CPMsg.jointable snapshot) (createTablePIDList selfPID joined2)],
        events := 1 }
    else
      { required := pre ++ [slot], joined := joined, ops := [], events := 0 }
  | pre, joined, slot :: keep :: rest2 =>
    if slot = fromPID ∨ slot = "*" then
      let joined2 := joined ++ [fromPID]
      let snapshot := { base with requiredPID := pre ++ (keep :: rest2), joinedPID := joined2 }
      let op := NetOp.send (CPMsg.jointable snapshot) (createTablePIDList selfPID joined2)
      let res := consumeLoop selfPID fromPID base (pre ++ [keep]) joined2 rest2
      { required := res.required, joined := res.joined,
        ops := op :: res.ops, events := res.events + 1 }
    else
      consumeLoop selfPID fromPID base (pre ++ [slot]) joined (keep :: rest2)

/-- Result of the outer table loop of the `jointablerequest` branch. -/
structure TablesResult where
  tables : List TableObject
  ops : List NetOp
  events : Nat
  openFlag : Bool
  deriving Repr, DecidableEq

/-- The outer loop of the `jointablerequest` branch, source lines 761 to 781:
for every table owned by the local peer, if it matches the requested
`(tableID, tableName)` run the slot consumption loop on it; afterwards, still
for every owned table, set the open flag when its `requiredPID` is nonempty. -/
def handleJoinTableRequestTables (selfPID fromPID tableID tableName : String) :
    List TableObject → TablesResult
  | [] => { tables := [], ops := [], events := 0, openFlag := false }
  | t :: rest =>
    let tailRes := handleJoinTableRequestTables selfPID fromPID tableID tableName rest
    if t.ownerPID = selfPID then
      if t.tableID = tableID ∧ t.tableName = tableName then
        let c := consumeLoop selfPID fromPID t [] t.joinedPID t.requiredPID
        let t2 := { t with requiredPID := c.required, joinedPID := c.joined }
        { tables := t2 :: tailRes.tables, ops := c.ops ++ tailRes.ops,
          events := c.events + tailRes.events,
          openFlag := (!t2.requiredPID.isEmpty) || tailRes.openFlag }
      else
        { tables := t :: tailRes.tables, ops := tailRes.ops, events := tailRes.events,
          openFlag := (!t.requiredPID.isEmpty) || tailRes.openFlag }
    else
      { tables := t :: tailRes.tables, ops := tailRes.ops, events := tailRes.events,
        openFlag := tailRes.openFlag }

/-- Result of handling one inbound `jointablerequest` notification. -/
structure HandleResult where
  state : CPState
  ops : List NetOp
  events : Nat
  deriving Repr, DecidableEq

/-- The `jointablerequest` case of `handleP2PMessage`, source lines 756 to 782:
return unchanged when the instance has no open tables; otherwise clear the
open flag, run the table loop and store the recomputed flag. `fromPID` is
`event.data.result.from` and `tableID` and `tableName` are the fields of the
message payload. -/
def handleJoinTableRequest (s : CPState) (fromPID tableID tableName : String) : HandleResult :=
  if s.openTables = false then
    { state := s, ops := [], events := 0 }
  else
    let r := handleJoinTableRequestTables s.selfPID fromPID tableID tableName s.joinedTables
    { state := { s with joinedTables := r.tables, openTables := r.openFlag },
      ops := r.ops, events := r.events }

/-- Skip scan semantics of the slot consumption loop, used to state the
behaviour of `consumeLoop` in closed form: consume each examined entry matching
the requester or the wildcard, and after each consumption keep the immediately
following entry without examining it. Returns the remaining slot list and the
number of consumed entries. -/
def skipConsume (fromPID : String) : List String → List String × Nat
  | [] => ([], 0)
  | [slot] => if slot = fromPID ∨ slot = "*" then ([], 1) else ([slot], 0)
  | slot :: keep :: rest2 =>
    if slot = fromPID ∨ slot = "*" then
      let r := skipConsume fromPID rest2
      (keep :: r.1, r.2 + 1)
    else
      let r := skipConsume fromPID (keep :: rest2)
      (slot :: r.1, r.2)

/-! ### Concrete sample inputs used by witnesses, counterexamples and evaluations -/

/-- A pending join request target: table owned by peer `ownerO`. -/
def reqTableC1 : TableObject :=
  { ownerPID := "ownerO", tableID := "42", tableName := "t", requiredPID := ["*"],
    joinedPID := ["ownerO"], tableInfo := "info" }

/-- Cached announcement entry from peer `p`, table `t1`. -/
def t2a : TableObject :=
  { ownerPID := "p", tableID := "t1", tableName := "", requiredPID := ["*"],
    joinedPID := ["p"], tableInfo := "i" }

/-- Cached announcement entry from peer `p`, table `t2`. -/
def t2b : TableObject :=
  { ownerPID := "p", tableID := "t2", tableName := "", requiredPID := ["*"],
    joinedPID := ["p"], tableInfo := "i" }

/-- Cached announcement entry from peer `p`, table `t3`. -/
def t2c : TableObject :=
  { ownerPID := "p", tableID := "t3", tableName := "", requiredPID := ["*"],
    joinedPID := ["p"], tableInfo := "i" }

/-- Cached announcement entry from peer `p`, table `t4`. -/
def t2d : TableObject :=
  { ownerPID := "p", tableID := "t4", tableName := "", requiredPID := ["*"],
    joinedPID := ["p"], tableInfo := "i" }

/-- Cached announcement entry from peer `p`, table `t5`. -/
def t2e : TableObject :=
  { ownerPID := "p", tableID := "t5", tableName := "", requiredPID := ["*"],
    joinedPID := ["p"], tableInfo := "i" }

/-- Instance state whose announcement cache already holds the per peer quota
(five distinct tables) from peer `p`. -/
def stateC2 : CPState :=
  { connected := true, selfPID := "me", openTables := false, joinedTables := [],
    announcedTables := [t2a, t2b, t2c, t2d, t2e], joinTableRequests := [],
    maxCapturedTables := 99, maxCapturesPerPeer := 5 }

/-- A sixth distinct announcement from peer `p`. -/
def r2six : TableResult :=
  { fromPID := "p",
    data := { ownerPID := "p", tableID := "t6", tableName := "", requiredPID := ["*"],
              joinedPID := ["p"], tableInfo := "i" } }

/-- A seventh distinct announcement from peer `p`. -/
def r2seven : TableResult :=
  { fromPID := "p",
    data := { ownerPID := "p", tableID := "t7", tableName := "", requiredPID := ["*"],
              joinedPID := ["p"], tableInfo := "i" } }

/-- A joined table used for the filter evaluation. -/
def t3only : TableObject :=
  { ownerPID := "A", tableID := "1", tableName := "n", requiredPID := [],
    joinedPID := ["A"], tableInfo := "i" }

/-- Instance state holding one joined table. -/
def stateC3 : CPState :=
  { connected := true, selfPID := "A", openTables := false, joinedTables := [t3only],
    announcedTables := [], joinTableRequests := [], maxCapturedTables := 99,
    maxCapturesPerPeer := 5 }

/-- A pending join request toward a table of owner `X`, unrelated to the table
joined next. -/
def pendingOtherC4 : TableObject :=
  { ownerPID := "X", tableID := "9", tableName := "", requiredPID := [],
    joinedPID := ["X"], tableInfo := "i" }

/-- Instance state with one pending join request for a different
`(ownerPID, tableID)` pair. -/
def stateC4 : CPState :=
  { connected := true, selfPID := "A", openTables := false, joinedTables := [],
    announcedTables := [], joinTableRequests := [pendingOtherC4],
    maxCapturedTables := 99, maxCapturesPerPeer := 5 }

/-- A valid joinable table of owner `B` with a wildcard slot. -/
def targetC4 : TableObject :=
  { ownerPID := "B", tableID := "7", tableName := "", requiredPID := ["*"],
    joinedPID := ["B"], tableInfo := "i" }

/-- Instance state with an empty announcement cache. -/
def stateC5 : CPState :=
  { connected := true, selfPID := "me", openTables := false, joinedTables := [],
    announcedTables := [], joinTableRequests := [], maxCapturedTables := 99,
    maxCapturesPerPeer := 5 }

/-- An announcement sent by `peerA` whose embedded table names `peerB` as its
owner. -/
def r5 : TableResult :=
  { fromPID := "peerA",
    data := { ownerPID := "peerB", tableID := "T", tableName := "", requiredPID := ["*"],
              joinedPID := ["peerB"], tableInfo := "i" } }

/-- A locally owned table with two wildcard slots. -/
def ownedC6 : TableObject :=
  { ownerPID := "A", tableID := "t1", tableName := "", requiredPID := ["*", "*"],
    joinedPID := ["A"], tableInfo := "i" }

/-- Instance state of peer `A` owning `ownedC6` with open tables. -/
def stateC6 : CPState :=
  { connected := true, selfPID := "A", openTables := true, joinedTables := [ownedC6],
    announcedTables := [], joinTableRequests := [], maxCapturedTables := 99,
    maxCapturesPerPeer := 5 }

/-- The table `ownedC6` after the handler processed a join request from `B`:
one wildcard slot was consumed, the second one survived the scan. -/
def ownedC6After : TableObject :=
  { ownerPID := "A", tableID := "t1", tableName := "", requiredPID := ["*"],
    joinedPID := ["A", "B"], tableInfo := "i" }

/-- A snapshot of a table with an open wildcard slot. -/
def fullT : TableObject :=
  { ownerPID := "A", tableID := "b", tableName := "", requiredPID := ["*"],
    joinedPID := ["A"], tableInfo := "i" }

/-- A snapshot of the same table once its slot list is empty. -/
def emptyT : TableObject :=
  { ownerPID := "A", tableID := "b", tableName := "", requiredPID := [],
    joinedPID := ["A", "B"], tableInfo := "i" }

/-- An announcement cache entry owned by peer `q`. -/
def cachedQ : TableObject :=
  { ownerPID := "q", tableID := "x", tableName := "", requiredPID := ["*"],
    joinedPID := ["q"], tableInfo := "i" }

/-- Instance state whose cache is exactly at its configured capacity of one. -/
def stateC8 : CPState :=
  { connected := true, selfPID := "me", openTables := false, joinedTables := [],
    announcedTables := [cachedQ], joinTableRequests := [], maxCapturedTables := 1,
    maxCapturesPerPeer := 5 }

/-- A fresh valid announcement from peer `p`. -/
def rC8 : TableResult :=
  { fromPID := "p",
    data := { ownerPID := "p", tableID := "y", tableName := "", requiredPID := ["*"],
              joinedPID := ["p"], tableInfo := "i" } }

/-- Connected instance state of peer `A` with no pending requests. -/
def stateC9 : CPState :=
  { connected := true, selfPID := "A", openTables := false, joinedTables := [],
    announcedTables := [], joinTableRequests := [], maxCapturedTables := 99,
    maxCapturesPerPeer := 5 }

/-- A valid table whose required slots name only foreign peers. -/
def targetC9 : TableObject :=
  { ownerPID := "B", tableID := "7", tableName := "", requiredPID := ["B", "C"],
    joinedPID := ["B"], tableInfo := "i" }

/-- Instance state with an empty cache used for the rejection invariance
witness. -/
def stateC10 : CPState :=
  { connected := true, selfPID := "me", openTables := false, joinedTables := [],
    announcedTables := [], joinTableRequests := [], maxCapturedTables := 99,
    maxCapturesPerPeer := 5 }

/-- An announcement whose embedded table is invalid (empty `ownerPID`). -/
def rC10 : TableResult :=
  { fromPID := "p",
    data := { ownerPID := "", tableID := "z", tableName := "", requiredPID := [],
              joinedPID := [], tableInfo := "i" } }

/-! ### Helper lemmas -/

/-- The slot scan fold leaves its accumulator untouched when no entry matches
the wildcard or the local private ID. -/
theorem foldl_slot_no_match (selfPID : String) :
    ∀ (l : List String) (acc : Bool), (∀ p ∈ l, p ≠ "*" ∧ p ≠ selfPID) →
      l.foldl (fun acc p => if p = "*" ∨ p = selfPID then true else acc) acc = acc := by
  intro l
  induction l with
  | nil => intro acc _; rfl
  | cons p rest ih =>
    intro acc h
    have hp := h p (List.mem_cons_self p rest)
    simp only [List.foldl_cons]
    rw [if_neg]
    · exact ih acc (fun q hq => h q (List.mem_cons_of_mem p hq))
    · rintro (h1 | h2)
      · exact hp.1 h1
      · exact hp.2 h2

/-- The `slotAvailable` flag stays false when every required slot names a
foreign peer. -/
theorem slotAvailableScan_eq_false (selfPID : String) (l : List String)
    (h : ∀ p ∈ l, p ≠ "*" ∧ p ≠ selfPID) : slotAvailableScan selfPID l = false :=
  foldl_slot_no_match selfPID l false h

/-! ### Claim C9 -/

/-- Claim C9: for every valid table whose requiredSlots entries are all peer
ids different from the local peer id (no wildcard), joinTable rejects the
returned outcome and no message is handed to the transport. -/
theorem claim_C9 (s : CPState) (tableObj : TableObject)
    (hconn : s.connected = true) (hvalid : isValidTable tableObj = true)
    (hforeign : ∀ p ∈ tableObj.requiredPID, p ≠ "*" ∧ p ≠ s.selfPID) :
    (joinTable s tableObj).outcome = JoinOutcome.rejected ∧
    (joinTable s tableObj).sent = [] := by
  have hslot := slotAvailableScan_eq_false s.selfPID tableObj.requiredPID hforeign
  simp [joinTable, hconn, hvalid, hslot]

/-- Claim C9 witness: a concrete valid table with only foreign required slots
is rejected by a connected instance without any transport call. -/
theorem claim_C9_witness :
    (joinTable stateC9 targetC9).outcome = JoinOutcome.rejected ∧
    (joinTable stateC9 targetC9).sent = [] :=
  claim_C9 stateC9 targetC9 (by rfl) (by rfl) (by decide)

/-! ### Claim C10 -/

/-- Claim C10: whenever captureTable returns false, the instance state, and in
particular the announced tables cache, is left exactly as it was before the
call. -/
theorem claim_C10 (s : CPState) (tableResult : TableResult)
    (h : (captureTable s tableResult).accepted = false) :
    (captureTable s tableResult).state = s := by
  by_cases h1 : isValidTable tableResult.data = false
  · simp [captureTable, h1]
  · by_cases h2 : captureScan tableResult.fromPID tableResult.data.tableID
        s.maxCapturesPerPeer s.announcedTables 0 = false
    · simp [captureTable, h1, h2]
    · exfalso
      simp [captureTable, h1, h2] at h

/-- Claim C10 witness: a rejected capture (invalid embedded table) leaves a
concrete state unchanged. -/
theorem claim_C10_witness : (captureTable stateC10 rC10).state = stateC10 :=
  claim_C10 stateC10 rC10 (by rfl)

/-! ### Claim C8 -/

/-- Claim C8: whenever the announced tables cache already holds exactly
maxCapturedTables entries (a positive capacity, default 99) and captureTable
accepts a new announcement, the new entry is placed at index 0, the oldest
entry (at the highest index) is removed, and all other entries keep their
relative order: the new cache is the announced table consed onto the old cache
without its last element. -/
theorem claim_C8 (s : CPState) (tableResult : TableResult)
    (hacc : (captureTable s tableResult).accepted = true)
    (hfull : s.announcedTables.length = s.maxCapturedTables)
    (hpos : 0 < s.maxCapturedTables) :
    (captureTable s tableResult).state.announcedTables =
      tableResult.data :: s.announcedTables.dropLast := by
  by_cases h1 : isValidTable tableResult.data = false
  · simp [captureTable, h1] at hacc
  · by_cases h2 : captureScan tableResult.fromPID tableResult.data.tableID
        s.maxCapturesPerPeer s.announcedTables 0 = false
    · simp [captureTable, h1, h2] at hacc
    · cases hA : s.announcedTables with
      | nil =>
        rw [hA] at hfull
        simp at hfull
        omega
      | cons b l =>
        have harith : s.maxCapturedTables < l.length + 1 + 1 := by
          rw [hA] at hfull
          simp at hfull
          omega
        rw [hA] at h2
        simp [captureTable, h1, h2, hA, harith, List.dropLast]

/-- Claim C8 witness: with a cache of capacity one holding one entry, an
accepted capture yields a cache holding exactly the new entry at the front. -/
theorem claim_C8_witness :
    (captureTable stateC8 rC8).state.announcedTables =
      rC8.data :: stateC8.announcedTables.dropLast :=
  claim_C8 stateC8 rC8 (by rfl) (by rfl) (by decide)

/-! ### Claim C2 (code bug evaluation) -/

/-- Claim C2 evaluation: the claim (and the JSDoc of `maxCapturesPerPeer` at
source lines 285 to 290) says that once five distinct tables from peer `p` are
cached, a further distinct capture from `p` must return false; the scan at
source lines 873 to 885 rejects only when the running count strictly exceeds
the quota, so the sixth distinct capture from `p` is accepted and only the
seventh is rejected. -/
theorem claim_C2_eval :
    (captureTable stateC2 r2six).accepted = true ∧
    (captureTable (captureTable stateC2 r2six).state r2seven).accepted = false := by
  decide

/-! ### Claim C3 (code bug evaluation) -/

/-- Claim C3 evaluation: the claim says getJoinedTables returns exactly the
joined tables matching all supplied filters; the source instead evaluates the
undeclared identifier `ownerID` (line 674) inside the scoring loop, so any call
with a supplied filter and a nonempty joined list raises a ReferenceError
instead of returning the matching table. -/
theorem claim_C3_eval :
    getJoinedTables stateC3 (some "n") none none =
      Except.error (JSError.referenceError "ownerID") := by
  rfl

/-! ### Claim C4 (code bug evaluation) -/

/-- Claim C4 evaluation: the claim says that with a connected peer, a valid
table, a matching wildcard slot and no pending request for the same
`(ownerPID, tableID)` pair, joinTable records the request and sends the join
request; with a pending request for a different pair in the list, the duplicate
scan at source lines 495 to 503 dereferences
`currentRequestTable[count].ownerPID` (a numeric property of a table object,
hence undefined), so the call throws a TypeError, nothing is sent and nothing
is recorded. -/
theorem claim_C4_eval :
    (joinTable stateC4 targetC4).outcome =
      JoinOutcome.threw (JSError.typeError "cannot read ownerPID of undefined") ∧
    (joinTable stateC4 targetC4).sent = [] ∧
    (joinTable stateC4 targetC4).state = stateC4 := by
  decide

/-! ### Claim C5 (code bug evaluation) -/

/-- Claim C5 evaluation: the claim says a second captureTable call from the
same announcing peer with the same tableID must return false while the entry is
cached; the source caches `tableResult.data` itself (line 893) instead of the
`newTable` copy whose `ownerPID` it had overwritten with the sender (line 892),
so when the embedded table names a different owner, the cached entry does not
match the sender in the duplicate scan and the identical second announcement is
accepted again. -/
theorem claim_C5_eval :
    (captureTable stateC5 r5).accepted = true ∧
    (captureTable (captureTable stateC5 r5).state r5).accepted = true := by
  decide

/-! ### Claim C1 (code bug evaluation) -/

/-- Claim C1 evaluation: the claim (and the JSDoc of the handler, which
declares that it fires `jointabletimeout` and removes the table from
`_joinTableRequests`) says timer expiry removes the pending request, rejects
the join outcome and dispatches a jointabletimeout event carrying the original
table; the timer at line 511 invokes the handler without binding `this` to the
instance (the instance travels only in the `context` parameter), and the
handler body uses `this.debug` (line 575) and `this.dispatchEvent` (line 585)
instead of `context`, so the invocation throws a TypeError before the scan
runs: the request stays in the pending list, no event is dispatched and the
promise is never rejected. -/
theorem claim_C1_eval :
    (onJoinTableRequestTimeout reqTableC1 [reqTableC1]).requests = [reqTableC1] ∧
    (onJoinTableRequestTimeout reqTableC1 [reqTableC1]).events = [] ∧
    (onJoinTableRequestTimeout reqTableC1 [reqTableC1]).rejected = none ∧
    (onJoinTableRequestTimeout reqTableC1 [reqTableC1]).threw =
      some (JSError.typeError "this.debug is not a function") := by
  decide

/-! ### Claim C7 -/

/-- Entries of a replicated list. -/
theorem replicate_get_some {α : Type} (x : α) :
    ∀ (n j : Nat), j < n → (List.replicate n x).get? j = some x := by
  intro n
  induction n with
  | zero =>
    intro j h
    exact absurd h (Nat.not_lt_zero j)
  | succ n ih =>
    intro j h
    cases j with
    | zero => simp [List.replicate]
    | succ j =>
      simp only [List.replicate, List.get?_cons_succ]
      exact ih j (Nat.lt_of_succ_lt_succ h)

/-- A cleared beacon produces no broadcast at any later tick. -/
theorem beaconRun_inactive : ∀ (snaps : List TableObject),
    beaconRun false snaps = List.replicate snaps.length none := by
  intro snaps
  induction snaps with
  | nil => rfl
  | cons t rest ih => simp [beaconRun, ih, List.replicate]

/-- Once a tick observes an empty required slot list, that tick and every later
tick of the beacon produce no broadcast, whatever the initial activity flag. -/
theorem beaconRun_get_none : ∀ (snaps : List TableObject) (a : Bool) (i j : Nat)
    (t : TableObject), snaps.get? i = some t → t.requiredPID = [] → i ≤ j →
    j < snaps.length → (beaconRun a snaps).get? j = some none := by
  intro snaps
  induction snaps with
  | nil =>
    intro a i j t _ _ _ hj
    simp at hj
  | cons s rest ih =>
    intro a i j t hi hreq hij hj
    cases a with
    | false =>
      rw [beaconRun_inactive]
      exact replicate_get_some none (s :: rest).length j hj
    | true =>
      cases i with
      | zero =>
        have hs : s = t := by simpa using hi
        subst hs
        have hann : announceTable s = { broadcast := none, beaconCleared := true } := by
          simp [announceTable, hreq]
        cases j with
        | zero => simp [beaconRun, hann]
        | succ j =>
          have hj2 : j < rest.length := by
            simp only [List.length_cons] at hj
            omega
          have hstep : beaconRun true (s :: rest) = none :: beaconRun false rest := by
            simp [beaconRun, hann]
          rw [hstep, List.get?_cons_succ, beaconRun_inactive]
          exact replicate_get_some none rest.length j hj2
      | succ i =>
        cases j with
        | zero => omega
        | succ j =>
          have hi2 : rest.get? i = some t := by simpa using hi
          have hj2 : j < rest.length := by
            simp only [List.length_cons] at hj
            omega
          have hij2 : i ≤ j := Nat.le_of_succ_le_succ hij
          have hstep : beaconRun true (s :: rest) =
              (announceTable s).broadcast ::
                beaconRun (true && !(announceTable s).beaconCleared) rest := by
            simp [beaconRun]
          rw [hstep, List.get?_cons_succ]
          exact ih (true && !(announceTable s).beaconCleared) i j t hi2 hreq hij2 hj2

/-- Claim C7: once a table observed by the beacon has an empty requiredPID
sequence, announceTable cancels the beacon timer and returns without
broadcasting, and no later tick of the beacon ever broadcasts an announcement
for that table again. -/
theorem claim_C7 (snaps : List TableObject) (i j : Nat) (t : TableObject)
    (hi : snaps.get? i = some t) (hreq : t.requiredPID = [])
    (hij : i ≤ j) (hj : j < snaps.length) :
    (announceTable t).broadcast = none ∧ (announceTable t).beaconCleared = true ∧
    (beaconRun true snaps).get? j = some none := by
  refine ⟨?_, ?_, ?_⟩
  · simp [announceTable, hreq]
  · simp [announceTable, hreq]
  · exact beaconRun_get_none snaps true i j t hi hreq hij hj

/-- Claim C7 witness: in a three tick run whose second tick observes the table
with emptied slots, the second and third ticks broadcast nothing and the
beacon is cleared. -/
theorem claim_C7_witness :
    (announceTable emptyT).broadcast = none ∧
    (announceTable emptyT).beaconCleared = true ∧
    (beaconRun true [fullT, emptyT, fullT]).get? 2 = some none :=
  claim_C7 [fullT, emptyT, fullT] 1 2 emptyT (by rfl) (by rfl) (by decide) (by decide)

/-! ### Claim C6 -/

/-- Characterization of the slot consumption loop: its surviving slot list and
its consumption count follow the skip scan semantics, the requester is pushed
onto the joined list once per consumed slot, and one message is sent and one
event dispatched per consumed slot. -/
theorem consumeLoop_char (selfPID fromPID : String) (base : TableObject) :
    ∀ (n : Nat) (rem : List String), rem.length ≤ n → ∀ (pre joined : List String),
      (consumeLoop selfPID fromPID base pre joined rem).required =
        pre ++ (skipConsume fromPID rem).1 ∧
      (consumeLoop selfPID fromPID base pre joined rem).joined =
        joined ++ List.replicate (skipConsume fromPID rem).2 fromPID ∧
      (consumeLoop selfPID fromPID base pre joined rem).ops.length =
        (skipConsume fromPID rem).2 ∧
      (consumeLoop selfPID fromPID base pre joined rem).events =
        (skipConsume fromPID rem).2 := by
  intro n
  induction n with
  | zero =>
    intro rem hlen pre joined
    have hnil : rem = [] := List.length_eq_zero.mp (Nat.le_zero.mp hlen)
    subst hnil
    simp [consumeLoop, skipConsume]
  | succ n ih =>
    intro rem hlen pre joined
    cases rem with
    | nil => simp [consumeLoop, skipConsume]
    | cons slot rest =>
      cases rest with
      | nil =>
        by_cases hs : slot = fromPID ∨ slot = "*"
        · simp [consumeLoop, skipConsume, hs, List.replicate]
        · simp [consumeLoop, skipConsume, hs]
      | cons keep rest2 =>
        simp only [List.length_cons] at hlen
        by_cases hs : slot = fromPID ∨ slot = "*"
        · obtain ⟨h1, h2, h3, h4⟩ :=
            ih rest2 (by omega) (pre ++ [keep]) (joined ++ [fromPID])
          refine ⟨?_, ?_, ?_, ?_⟩ <;>
            simp [consumeLoop, skipConsume, hs, h1, h2, h3, h4,
              List.replicate_succ, List.append_assoc]
        · obtain ⟨h1, h2, h3, h4⟩ :=
            ih (keep :: rest2) (by simp; omega) (pre ++ [slot]) joined
          refine ⟨?_, ?_, ?_, ?_⟩ <;>
            simp [consumeLoop, skipConsume, hs, h1, h2, h3, h4, List.append_assoc]

/-- Characterization of the outer table loop of the jointablerequest branch:
each owned matching table is rewritten according to the skip scan, the number
of sends equals the number of dispatched events, and the recomputed open flag
is true exactly when some owned table in the result still has a nonempty
required slot list. -/
theorem tablesLoop_char (selfPID fromPID tableID tableName : String) :
    ∀ (l : List TableObject),
      (handleJoinTableRequestTables selfPID fromPID tableID tableName l).tables =
        l.map (fun t =>
          if t.ownerPID = selfPID ∧ t.tableID = tableID ∧ t.tableName = tableName then
            { t with requiredPID := (skipConsume fromPID t.requiredPID).1,
                     joinedPID := t.joinedPID ++
                       List.replicate (skipConsume fromPID t.requiredPID).2 fromPID }
          else t) ∧
      (handleJoinTableRequestTables selfPID fromPID tableID tableName l).ops.length =
        (handleJoinTableRequestTables selfPID fromPID tableID tableName l).events ∧
      (handleJoinTableRequestTables selfPID fromPID tableID tableName l).openFlag =
        (handleJoinTableRequestTables selfPID fromPID tableID tableName l).tables.any
          (fun t => (t.ownerPID == selfPID) && !t.requiredPID.isEmpty) := by
  intro l
  induction l with
  | nil => simp [handleJoinTableRequestTables]
  | cons t rest ih =>
    obtain ⟨ht, ho, hf⟩ := ih
    by_cases h1 : t.ownerPID = selfPID
    · by_cases h2 : t.tableID = tableID ∧ t.tableName = tableName
      · obtain ⟨c1, c2, c3, c4⟩ := consumeLoop_char selfPID fromPID t
          t.requiredPID.length t.requiredPID (Nat.le_refl _) [] t.joinedPID
        refine ⟨?_, ?_, ?_⟩ <;>
          simp [handleJoinTableRequestTables, h1, h2, ht, ho, hf, c1, c2, c3, c4]
      · refine ⟨?_, ?_, ?_⟩ <;>
          simp [handleJoinTableRequestTables, h1, h2, ht, ho, hf]
    · refine ⟨?_, ?_, ?_⟩ <;>
        simp [handleJoinTableRequestTables, h1, ht, ho, hf]

/-- Claim C6 counterexample: the claim says each requiredSlots entry equal to
the requester or the wildcard is consumed, so a table with two wildcard slots
would end with an empty slot list, the requester appended twice and two events
dispatched; the source splices the slot out and then increments the loop index,
so the second wildcard entry survives the scan, the requester is appended once
and one event is dispatched. -/
theorem claim_C6_counterexample :
    (handleJoinTableRequest stateC6 "B" "t1" "").state.joinedTables = [ownedC6After] ∧
    ownedC6After.requiredPID = ["*"] ∧
    (handleJoinTableRequest stateC6 "B" "t1" "").events = 1 := by
  decide

/-- Each transport call recorded by the slot consumption loop is a jointable
message carrying a table snapshot, sent to the members of that snapshot
excluding the self, and the snapshot's joined list ends with the requester
that was appended on that consumption. -/
theorem consumeLoop_ops_shape (selfPID fromPID : String) (base : TableObject) :
    ∀ (n : Nat) (rem : List String), rem.length ≤ n → ∀ (pre joined : List String),
      ∀ op ∈ (consumeLoop selfPID fromPID base pre joined rem).ops,
        ∃ snap : TableObject,
          op = NetOp.send (CPMsg.jointable snap)
            (createTablePIDList selfPID snap.joinedPID) ∧
          snap.joinedPID.getLast? = some fromPID := by
  intro n
  induction n with
  | zero =>
    intro rem hlen pre joined
    have hnil : rem = [] := List.length_eq_zero.mp (Nat.le_zero.mp hlen)
    subst hnil
    simp [consumeLoop]
  | succ n ih =>
    intro rem hlen pre joined
    cases rem with
    | nil => simp [consumeLoop]
    | cons slot rest =>
      cases rest with
      | nil =>
        by_cases hs : slot = fromPID ∨ slot = "*"
        · intro op hop
          have hops : (consumeLoop selfPID fromPID base pre joined [slot]).ops =
              [NetOp.send
                (CPMsg.jointable
                  { base with requiredPID := pre, joinedPID := joined ++ [fromPID] })
                (createTablePIDList selfPID (joined ++ [fromPID]))] := by
            simp [consumeLoop, hs]
          rw [hops] at hop
          have hop2 := List.mem_singleton.mp hop
          subst hop2
          refine ⟨{ base with requiredPID := pre, joinedPID := joined ++ [fromPID] },
            rfl, ?_⟩
          show (joined ++ [fromPID]).getLast? = some fromPID
          rw [List.getLast?_append_cons]
          rfl
        · intro op hop
          have hops : (consumeLoop selfPID fromPID base pre joined [slot]).ops = [] := by
            simp [consumeLoop, hs]
          rw [hops] at hop
          simp at hop
      | cons keep rest2 =>
        simp only [List.length_cons] at hlen
        by_cases hs : slot = fromPID ∨ slot = "*"
        · intro op hop
          have hops :
              (consumeLoop selfPID fromPID base pre joined (slot :: keep :: rest2)).ops =
              NetOp.send
                (CPMsg.jointable
                  { base with requiredPID := pre ++ (keep :: rest2),
                              joinedPID := joined ++ [fromPID] })
                (createTablePIDList selfPID (joined ++ [fromPID])) ::
              (consumeLoop selfPID fromPID base (pre ++ [keep])
                (joined ++ [fromPID]) rest2).ops := by
            simp [consumeLoop, hs]
          rw [hops] at hop
          rcases List.mem_cons.mp hop with h | h
          · subst h
            refine ⟨{ base with requiredPID := pre ++ (keep :: rest2), joinedPID := joined ++ [fromPID] }, rfl, ?_⟩
            show (joined ++ [fromPID]).getLast? = some fromPID
            rw [List.getLast?_append_cons]
            rfl
          · exact ih rest2 (by omega) (pre ++ [keep]) (joined ++ [fromPID]) op h
        · intro op hop
          have hops :
              (consumeLoop selfPID fromPID base pre joined (slot :: keep :: rest2)).ops =
              (consumeLoop selfPID fromPID base (pre ++ [slot]) joined
                (keep :: rest2)).ops := by
            simp [consumeLoop, hs]
          rw [hops] at hop
          exact ih (keep :: rest2) (by simp; omega) (pre ++ [slot]) joined op hop

/-- The number of dispatched events of the outer table loop equals the total
number of consumed slots across the owned matching tables, counted by the skip
scan. -/
theorem tablesLoop_events (selfPID fromPID tableID tableName : String) :
    ∀ (l : List TableObject),
      (handleJoinTableRequestTables selfPID fromPID tableID tableName l).events =
        (l.map (fun t =>
          if t.ownerPID = selfPID ∧ t.tableID = tableID ∧ t.tableName = tableName then
            (skipConsume fromPID t.requiredPID).2
          else 0)).sum := by
  intro l
  induction l with
  | nil => simp [handleJoinTableRequestTables]
  | cons t rest ih =>
    by_cases h1 : t.ownerPID = selfPID
    · by_cases h2 : t.tableID = tableID ∧ t.tableName = tableName
      · obtain ⟨c1, c2, c3, c4⟩ := consumeLoop_char selfPID fromPID t
          t.requiredPID.length t.requiredPID (Nat.le_refl _) [] t.joinedPID
        simp [handleJoinTableRequestTables, h1, h2, ih, c4]
      · simp [handleJoinTableRequestTables, h1, h2, ih]
    · simp [handleJoinTableRequestTables, h1, ih]

/-- Each transport call recorded by the outer table loop is a jointable update
sent to the members of its snapshot excluding the self, the requester being
the most recently appended member of that snapshot. -/
theorem tablesLoop_ops_shape (selfPID fromPID tableID tableName : String) :
    ∀ (l : List TableObject),
      ∀ op ∈ (handleJoinTableRequestTables selfPID fromPID tableID tableName l).ops,
        ∃ snap : TableObject,
          op = NetOp.send (CPMsg.jointable snap)
            (createTablePIDList selfPID snap.joinedPID) ∧
          snap.joinedPID.getLast? = some fromPID := by
  intro l
  induction l with
  | nil => simp [handleJoinTableRequestTables]
  | cons t rest ih =>
    intro op hop
    by_cases h1 : t.ownerPID = selfPID
    · by_cases h2 : t.tableID = tableID ∧ t.tableName = tableName
      · have hops :
            (handleJoinTableRequestTables selfPID fromPID tableID tableName (t :: rest)).ops =
            (consumeLoop selfPID fromPID t [] t.joinedPID t.requiredPID).ops ++
            (handleJoinTableRequestTables selfPID fromPID tableID tableName rest).ops := by
          simp [handleJoinTableRequestTables, h1, h2]
        rw [hops] at hop
        rcases List.mem_append.mp hop with h | h
        · exact consumeLoop_ops_shape selfPID fromPID t t.requiredPID.length
            t.requiredPID (Nat.le_refl _) [] t.joinedPID op h
        · exact ih op h
      · have hops :
            (handleJoinTableRequestTables selfPID fromPID tableID tableName (t :: rest)).ops =
            (handleJoinTableRequestTables selfPID fromPID tableID tableName rest).ops := by
          simp [handleJoinTableRequestTables, h1, h2]
        rw [hops] at hop
        exact ih op hop
    · have hops :
          (handleJoinTableRequestTables selfPID fromPID tableID tableName (t :: rest)).ops =
          (handleJoinTableRequestTables selfPID fromPID tableID tableName rest).ops := by
        simp [handleJoinTableRequestTables, h1]
      rw [hops] at hop
      exact ih op hop

/-- Claim C6 amended: for every inbound jointablerequest notification from
requester R processed while the open flag is set, each locally owned table
matching the request is rewritten by the skip scan: matching entries of
requiredSlots are consumed left to right except that the entry immediately
after each consumed one is kept without being examined, and R is appended to
joinedPID once per consumed entry; the number of dispatched events equals the
total number of consumed entries, one jointable update is sent per dispatched
event, and every sent update is a jointable message carrying a table snapshot
addressed to that snapshot's members excluding the self, with R as the most
recently appended member; afterwards the openTables flag is true exactly when
some locally owned table still has a nonempty requiredSlots. -/
theorem claim_C6_amended (s : CPState) (fromPID tableID tableName : String)
    (hopen : s.openTables = true) :
    (handleJoinTableRequest s fromPID tableID tableName).state.joinedTables =
      s.joinedTables.map (fun t =>
        if t.ownerPID = s.selfPID ∧ t.tableID = tableID ∧ t.tableName = tableName then
          { t with requiredPID := (skipConsume fromPID t.requiredPID).1,
                   joinedPID := t.joinedPID ++
                     List.replicate (skipConsume fromPID t.requiredPID).2 fromPID }
        else t) ∧
    (handleJoinTableRequest s fromPID tableID tableName).events =
      (s.joinedTables.map (fun t =>
        if t.ownerPID = s.selfPID ∧ t.tableID = tableID ∧ t.tableName = tableName then
          (skipConsume fromPID t.requiredPID).2
        else 0)).sum ∧
    (handleJoinTableRequest s fromPID tableID tableName).ops.length =
      (handleJoinTableRequest s fromPID tableID tableName).events ∧
    (∀ op ∈ (handleJoinTableRequest s fromPID tableID tableName).ops,
      ∃ snap : TableObject,
        op = NetOp.send (CPMsg.jointable snap)
          (createTablePIDList s.selfPID snap.joinedPID) ∧
        snap.joinedPID.getLast? = some fromPID) ∧
    (handleJoinTableRequest s fromPID tableID tableName).state.openTables =
      (handleJoinTableRequest s fromPID tableID tableName).state.joinedTables.any
        (fun t => (t.ownerPID == s.selfPID) && !t.requiredPID.isEmpty) := by
  obtain ⟨h1, h2, h3⟩ := tablesLoop_char s.selfPID fromPID tableID tableName s.joinedTables
  have h4 := tablesLoop_events s.selfPID fromPID tableID tableName s.joinedTables
  have h5 := tablesLoop_ops_shape s.selfPID fromPID tableID tableName s.joinedTables
  refine ⟨?_, ?_, ?_, ?_, ?_⟩
  · simp [handleJoinTableRequest, hopen, h1]
  · simp [handleJoinTableRequest, hopen, h4]
  · simp [handleJoinTableRequest, hopen, h2]
  · intro op hop
    apply h5
    simpa [handleJoinTableRequest, hopen] using hop
  · simp [handleJoinTableRequest, hopen, h1, h3]

/-- Claim C6 witness: the amended claim applied to the concrete two wildcard
state of the counterexample. -/
theorem claim_C6_witness :
    (handleJoinTableRequest stateC6 "B" "t1" "").state.joinedTables =
      stateC6.joinedTables.map (fun t =>
        if t.ownerPID = stateC6.selfPID ∧ t.tableID = "t1" ∧ t.tableName = "" then
          { t with requiredPID := (skipConsume "B" t.requiredPID).1,
                   joinedPID := t.joinedPID ++
                     List.replicate (skipConsume "B" t.requiredPID).2 "B" }
        else t) ∧
    (handleJoinTableRequest stateC6 "B" "t1" "").events =
      (stateC6.joinedTables.map (fun t =>
        if t.ownerPID = stateC6.selfPID ∧ t.tableID = "t1" ∧ t.tableName = "" then
          (skipConsume "B" t.requiredPID).2
        else 0)).sum ∧
    (handleJoinTableRequest stateC6 "B" "t1" "").ops.length =
      (handleJoinTableRequest stateC6 "B" "t1" "").events ∧
    (∀ op ∈ (handleJoinTableRequest stateC6 "B" "t1" "").ops,
      ∃ snap : TableObject,
        op = NetOp.send (CPMsg.jointable snap)
          (createTablePIDList stateC6.selfPID snap.joinedPID) ∧
        snap.joinedPID.getLast? = some "B") ∧
    (handleJoinTableRequest stateC6 "B" "t1" "").state.openTables =
      (handleJoinTableRequest stateC6 "B" "t1" "").state.joinedTables.any
        (fun t => (t.ownerPID == stateC6.selfPID) && !t.requiredPID.isEmpty) :=
  claim_C6_amended stateC6 "B" "t1" "" (by rfl)
